import Mathlib

/-!
Shallow embedding of the mcp-google-sheets server (src/sheets.ts, src/types.ts and
the index.ts embedded in src/README.md).  Pure request-building logic is translated
directly; calls into the external Google Sheets/Drive collaborator are modelled by
oracle parameters describing the collaborator's replies, and the observable effect
of each operation is shown as the request record it sends together with its
returned value.
-/

namespace McpGoogleSheets

/-- JavaScript truthiness of an optional string argument: `undefined` and the
empty string are falsy, every other string is truthy. -/
def jsTruthyStr : Option String → Bool
  | none => false
  | some s => s != ""

/-! ### Spreadsheet metadata (the shape of `spreadsheets.get` replies) -/

/-- The `properties` object of a sheet descriptor: in the googleapis client both
fields are optional. -/
structure SheetProperties where
  title : Option String
  sheetId : Option Int
deriving Repr, DecidableEq

/-- One entry of `meta.data.sheets`; `properties` itself is optional. -/
structure Sheet where
  properties : Option SheetProperties
deriving Repr, DecidableEq

/-- The part of a `spreadsheets.get` reply the handlers read: `data.sheets` may be
absent. -/
structure SpreadsheetMeta where
  sheets : Option (List Sheet)
deriving Repr, DecidableEq

/-- Projection `s.properties?.title` from the TypeScript source. -/
def Sheet.titleOf (s : Sheet) : Option String :=
  s.properties.bind SheetProperties.title

/-- Projection `s.properties?.sheetId` from the TypeScript source. -/
def Sheet.sheetIdOf (s : Sheet) : Option Int :=
  s.properties.bind SheetProperties.sheetId

/-- The resolve-sheet-by-title scan shared (textually repeated) by `renameSheet`,
`addRows`, `addColumns` and `copySheet`:
`meta.data.sheets?.find(s => s.properties?.title === sheetTitle)`.
`===` on strings is exact, case-sensitive equality, and comparing an absent title
with a string is false. -/
def findSheetByTitle (meta : SpreadsheetMeta) (sheetTitle : String) : Option Sheet :=
  (meta.sheets.getD []).find? (fun s => s.titleOf == some sheetTitle)

/-! ### Requests sent to the collaborator by `spreadsheets.batchUpdate` -/

/-- The `range` object inside an `insertDimension` request. -/
structure DimensionRange where
  sheetId : Option Int
  dimension : String
  startIndex : Int
  endIndex : Int
deriving Repr, DecidableEq

/-- One entry of a `spreadsheets.batchUpdate` request body's `requests` array, as
built by the handlers in sheets.ts. -/
inductive SheetsRequest where
  | updateSheetProperties (sheetId : Option Int) (title : String) (fields : String)
  | addSheet (title : String)
  | insertDimension (range : DimensionRange) (inheritFromBefore : Bool)
deriving Repr, DecidableEq

/-- A `spreadsheets.batchUpdate` request body. -/
structure BatchUpdateBody where
  requests : List SheetsRequest
deriving Repr, DecidableEq

/-! ### renameSheet -/

/-- Result of `renameSheet`: the source returns the sentinel string
"Cannot find the sheet with the specified name" when the scan fails, otherwise the
reply of the `batchUpdate` call; we record the request it issues. -/
inductive RenameResult where
  | notFound (msg : String)
  | success (request : BatchUpdateBody)
deriving Repr, DecidableEq

/-- Embedding of `renameSheet`, src/sheets.ts lines 66-74. -/
def renameSheet (meta : SpreadsheetMeta) (sheetTitle newName : String) : RenameResult :=
  match findSheetByTitle meta sheetTitle with
  | none => .notFound "Cannot find the sheet with the specified name"
  | some sheetObj =>
      .success { requests := [.updateSheetProperties sheetObj.sheetIdOf newName "title"] }

/-! ### addRows / addColumns -/

/-- JavaScript `x || 0` on a number (for integer inputs: 0 stays 0, everything
else is itself). -/
def jsOrZero (x : Int) : Int :=
  if x = 0 then 0 else x

/-- JavaScript `!!x` on a number (for integer inputs: truthy iff nonzero). -/
def jsTruthyInt (x : Int) : Bool :=
  x != 0

/-- Result of `addRows`/`addColumns`: a sentinel string on a failed scan,
otherwise the reply of the `batchUpdate` call; we record the request issued. -/
inductive InsertResult where
  | notFound (msg : String)
  | success (request : BatchUpdateBody)
deriving Repr, DecidableEq

/-- Embedding of `addRows`, src/sheets.ts lines 142-158. -/
def addRows (meta : SpreadsheetMeta) (sheet : String) (count startRow : Int) :
    InsertResult :=
  match findSheetByTitle meta sheet with
  | none => .notFound "Sheet Not found"
  | some sheetObj =>
      .success { requests := [.insertDimension
        { sheetId := sheetObj.sheetIdOf, dimension := "ROWS",
          startIndex := jsOrZero startRow, endIndex := jsOrZero startRow + count }
        (jsTruthyInt startRow)] }

/-- Embedding of `addColumns`, src/sheets.ts lines 160-175. -/
def addColumns (meta : SpreadsheetMeta) (sheet : String) (count startColumn : Int) :
    InsertResult :=
  match findSheetByTitle meta sheet with
  | none => .notFound "Sheet not found"
  | some sheetObj =>
      .success { requests := [.insertDimension
        { sheetId := sheetObj.sheetIdOf, dimension := "COLUMNS",
          startIndex := jsOrZero startColumn, endIndex := jsOrZero startColumn + count }
        (jsTruthyInt startColumn)] }

/-! ### copySheet -/

/-- The `data` of a `sheets.copyTo` reply, as read by `copySheet` (both fields
optional in the client types). -/
structure CopyReplyData where
  sheetId : Option Int
  title : Option String
deriving Repr, DecidableEq

/-- Result of `copySheet`: sentinel string when the source sheet scan fails;
otherwise the copy reply, together with the follow-up rename request when one is
issued. -/
inductive CopySheetResult where
  | notFound (msg : String)
  | copied (copy : CopyReplyData)
  | copiedAndRenamed (copy : CopyReplyData) (renameRequest : BatchUpdateBody)
deriving Repr, DecidableEq

/-- Embedding of `copySheet`, src/sheets.ts lines 177-190.  `copyReply` is the external
collaborator's reply to the `copyTo` call.  The follow-up rename happens when
`dstSheet` is truthy and `copyRes.data.title !== dstSheet` (an absent title is
not equal to a string). -/
def copySheet (srcMeta : SpreadsheetMeta) (srcSheet dstSheet : String)
    (copyReply : CopyReplyData) : CopySheetResult :=
  match findSheetByTitle srcMeta srcSheet with
  | none => .notFound "Source sheet not found"
  | some _ =>
      if jsTruthyStr (some dstSheet) && !(copyReply.title == some dstSheet) then
        .copiedAndRenamed copyReply
          { requests := [.updateSheetProperties copyReply.sheetId dstSheet "title"] }
      else
        .copied copyReply

/-! ### sheetData / updateCells (range truthiness) -/

/-- A `spreadsheets.values.get` request as built by `sheetData`. -/
structure ValuesGetRequest where
  spreadsheetId : String
  range : String
deriving Repr, DecidableEq

/-- Embedding of `sheetData`, src/sheets.ts lines 116-120: the request it sends.  The
`range` argument is discriminated by JavaScript truthiness:
`const fullRange = range ? sheet+"!"+range : sheet`. -/
def sheetDataRequest (spreadsheetId sheet : String) (range : Option String) :
    ValuesGetRequest :=
  { spreadsheetId,
    range := if jsTruthyStr range then sheet ++ "!" ++ range.getD "" else sheet }

/-- A `spreadsheets.values.update` request as built by `updateCells`. -/
structure ValuesUpdateRequest where
  spreadsheetId : String
  range : String
  valueInputOption : String
  values : List (List String)
deriving Repr, DecidableEq

/-- Embedding of `updateCells`, src/sheets.ts lines 122-131: the request it sends, with
the same truthiness discrimination of `range`. -/
def updateCellsRequest (spreadsheetId sheet : String) (range : Option String)
    (data : List (List String)) : ValuesUpdateRequest :=
  { spreadsheetId,
    range := if jsTruthyStr range then sheet ++ "!" ++ range.getD "" else sheet,
    valueInputOption := "USER_ENTERED",
    values := data }

/-! ### batchUpdate (values.batchUpdate) -/

/-- JavaScript `Object.entries` applied to an array: the keys are the decimal
string forms of the element indices, in order. -/
def objectEntries (l : List α) : List (String × α) :=
  l.enum.map (fun p => (toString p.1, p.2))

/-- One entry of the `data` array of a `values.batchUpdate` request body.  In the
source each entry's `values` is an element of the `ranges : any[][]` argument,
i.e. a single row of strings rather than a grid. -/
structure BatchValueEntry where
  range : String
  values : List String
deriving Repr, DecidableEq

/-- A `spreadsheets.values.batchUpdate` request body. -/
structure ValuesBatchUpdateBody where
  valueInputOption : String
  data : List BatchValueEntry
deriving Repr, DecidableEq

/-- Embedding of `batchUpdate`, src/sheets.ts lines 133-140: the single request body it
sends.  `Object.entries(ranges)` over the array makes `r` the element's index
string, so each entry's range is `sheet + "!" + index`. -/
def batchUpdateBody (sheet : String) (ranges : List (List String)) :
    ValuesBatchUpdateBody :=
  { valueInputOption := "USER_ENTERED",
    data := (objectEntries ranges).map
      (fun p => { range := sheet ++ "!" ++ p.1, values := p.2 }) }

/-! ### shareSpreadsheet -/

/-- One element of the `recipients` argument of `shareSpreadsheet`. -/
structure Recipient where
  email_address : String
  role : String
deriving Repr, DecidableEq

/-- A success entry pushed by `shareSpreadsheet`. -/
structure ShareSuccess where
  email_address : String
  role : String
  permissionId : String
deriving Repr, DecidableEq

/-- A failure entry pushed by `shareSpreadsheet`. -/
structure ShareFailure where
  email_address : String
  error : String
deriving Repr, DecidableEq

/-- The value returned by `shareSpreadsheet`. -/
structure ShareResult where
  successes : List ShareSuccess
  failures : List ShareFailure
deriving Repr, DecidableEq

/-- Outcome of one `drive.permissions.create` call: either the granted
permission id, or the message of the error the collaborator throws. -/
inductive GrantOutcome where
  | ok (permissionId : String)
  | err (message : String)
deriving Repr, DecidableEq

/-- The validity test of src/sheets.ts line 102, negated:
`!email_address || !['reader','commenter','writer'].includes(role)` marks an
entry invalid; an empty address is falsy. -/
def validShareEntry (r : Recipient) : Bool :=
  !(r.email_address == "") && ["reader", "commenter", "writer"].contains r.role

/-- Embedding of `shareSpreadsheet`, src/sheets.ts lines 97-114.  `grant` is an oracle for
the collaborator's reply to each attempted `permissions.create` call; recipients
are processed front to back, pushing one outcome each. -/
def shareSpreadsheet (grant : Recipient → GrantOutcome) :
    List Recipient → ShareResult
  | [] => { successes := [], failures := [] }
  | r :: rest =>
      let tail := shareSpreadsheet grant rest
      if validShareEntry r then
        match grant r with
        | .ok pid =>
            { successes := ⟨r.email_address, r.role, pid⟩ :: tail.successes,
              failures := tail.failures }
        | .err m =>
            { successes := tail.successes,
              failures := ⟨r.email_address, m⟩ :: tail.failures }
      else
        { successes := tail.successes,
          failures := ⟨r.email_address, "Invalid Entry"⟩ :: tail.failures }

/-! ### createSpreadSheet -/

/-- A `drive.permissions.create` request body as built by `createSpreadSheet`
and `shareSpreadsheet`. -/
structure PermissionRequest where
  fileId : String
  type : String
  role : String
  emailAddress : String
  sendNotificationEmail : Bool
deriving Repr, DecidableEq

/-- A `drive.files.update` move request as built by `createSpreadSheet`. -/
structure MoveRequest where
  fileId : String
  addParents : String
  removeParents : String
deriving Repr, DecidableEq

/-- The collaborator replies `createSpreadSheet` depends on. -/
structure CreateEnv where
  /-- Field `spreadsheet.data.spreadsheetId` of the create reply (`none` models a reply
  without an id, which makes the handler throw). -/
  spreadsheetId : Option String
  /-- Field `spreadsheet.data.spreadsheetUrl` of the create reply. -/
  spreadsheetUrl : Option String
  /-- whether the `permissions.create` call throws. -/
  grantThrows : Bool
  /-- Field `file.data.parents` of the `files.get` reply during the folder move. -/
  parents : Option (List String)
  /-- whether the `files.get`/`files.update` pair throws. -/
  moveThrows : Bool
deriving Repr, DecidableEq

/-- the `context.folderId` configuration. -/
structure CreateConfig where
  folderId : Option String
deriving Repr, DecidableEq

/-- The observable run of `createSpreadSheet`: its return value (or the thrown
error), the permission request it attempts, the move request it attempts, and
the `console` log prefixes it emits. -/
structure CreateRun where
  result : Except String (String × Option String)
  permissionRequest : Option PermissionRequest
  moveRequest : Option MoveRequest
  log : List String
deriving Repr

/-- Embedding of `createSpreadSheet`, src/sheets.ts lines 3-57.  The permission grant uses
the string literal `"process.env.EMAIL_ID"` as the email address (the source
quotes the expression); grant and move failures are caught and logged; the
id/link pair is returned whenever the create reply carries an id. -/
def createSpreadSheet (cfg : CreateConfig) (env : CreateEnv) : CreateRun :=
  match env.spreadsheetId with
  | none =>
      { result := .error "Failed to create spreadsheet: No spreadsheet ID returned",
        permissionRequest := none, moveRequest := none,
        log := ["Error in createSpreadSheet:"] }
  | some id =>
      let permReq : PermissionRequest :=
        { fileId := id, type := "user", role := "writer",
          emailAddress := "process.env.EMAIL_ID", sendNotificationEmail := true }
      let grantLog := if env.grantThrows then ["Error granting permissions:"] else []
      match cfg.folderId with
      | none =>
          { result := .ok (id, env.spreadsheetUrl),
            permissionRequest := some permReq, moveRequest := none, log := grantLog }
      | some folder =>
          if env.moveThrows then
            { result := .ok (id, env.spreadsheetUrl),
              permissionRequest := some permReq, moveRequest := none,
              log := grantLog ++ ["Error moving to folder:"] }
          else
            { result := .ok (id, env.spreadsheetUrl),
              permissionRequest := some permReq,
              moveRequest := some
                { fileId := id, addParents := folder,
                  removeParents := String.intercalate "," (env.parents.getD []) },
              log := grantLog }

/-! ### The response envelope and the tool callbacks of index.ts -/

/-- One content item of a tool response envelope. -/
structure ContentItem where
  type : String
  text : String
deriving Repr, DecidableEq

/-- The response envelope returned by every tool callback. -/
structure Envelope where
  content : List ContentItem
deriving Repr, DecidableEq

/-- What a pending JavaScript Promise renders to inside a template literal.
Several tool callbacks interpolate an operation call they did not `await`. -/
def promiseString : String := "[object Promise]"

/-- The `updateCells` tool callback (README index.ts lines 421-432): the
operation is started but not awaited, so the envelope text interpolates a
pending Promise instead of the operation's result. -/
def updateCellsTool (spreadsheetId sheet range : String)
    (data : List (List String)) : Envelope :=
  let _res := updateCellsRequest spreadsheetId sheet (some range) data
  { content := [{ type := "text", text := "Data was updated successfully." ++ promiseString }] }

/-- The `batchUpdate` tool callback (README index.ts lines 434-445): the
operation is started but not awaited, so the envelope text interpolates a
pending Promise instead of the operation's result. -/
def batchUpdateTool (sheet : String) (ranges : List (List String)) : Envelope :=
  let _res := batchUpdateBody sheet ranges
  { content := [{ type := "text", text := "The values were updated: " ++ promiseString }] }

/-- The `addRows` tool callback (README index.ts lines 447-458): the operation
is started but not awaited and its result is discarded; the envelope text is a
fixed success message. -/
def addRowsTool (meta : SpreadsheetMeta) (sheet : String) (count startRow : Int) :
    Envelope :=
  let _res := addRows meta sheet count startRow
  { content := [{ type := "text", text := "The rows were added successfully!" }] }

/-- The `addColumns` tool callback (README index.ts lines 460-471): the
operation is started but not awaited and its result is discarded; the envelope
text is a fixed success message. -/
def addColumnsTool (meta : SpreadsheetMeta) (sheet : String)
    (count startColumn : Int) : Envelope :=
  let _res := addColumns meta sheet count startColumn
  { content := [{ type := "text", text := "The columns were added successfully!" }] }

/-- The `copySheet` tool callback (README index.ts lines 473-484): the operation
is started but not awaited, so the envelope text interpolates a pending Promise
instead of the operation's result. -/
def copySheetTool (srcMeta : SpreadsheetMeta) (srcSheet dstSheet : String)
    (copyReply : CopyReplyData) : Envelope :=
  let _res := copySheet srcMeta srcSheet dstSheet copyReply
  { content := [{ type := "text", text := "Sheet was successfully copied to destination sheet. " ++ promiseString }] }

/-! ### The Tool Registry / Dispatcher -/

/-- Outcome of running a tool handler on parsed arguments: the value it resolves
with, or the error it throws. -/
inductive HandlerOutcome where
  | value (s : String)
  | thrown (e : String)
deriving Repr, DecidableEq

/-- Modelled from the spec: a Tool Descriptor of the Tool Registry.  The
registry machinery and dispatch loop live in the external
@modelcontextprotocol/sdk, not in this repository's sources; only the
`server.tool(...)` registrations appear in index.ts. -/
structure ToolDescriptor where
  name : String
  handler : List (String × String) → HandlerOutcome

/-- Modelled from the spec: look up a registered tool by name. -/
def lookupTool (registry : List ToolDescriptor) (name : String) :
    Option ToolDescriptor :=
  registry.find? (fun d => d.name == name)

/-- Modelled from the spec: `dispatch` — an unknown name yields an error-text
envelope; a handler's resolved value becomes a single text content item; a
handler's thrown error is caught and converted to a text content item. -/
def dispatch (registry : List ToolDescriptor) (name : String)
    (args : List (String × String)) : Envelope :=
  match lookupTool registry name with
  | none => { content := [{ type := "text", text := "Unknown tool: " ++ name }] }
  | some d =>
      match d.handler args with
      | .value v => { content := [{ type := "text", text := v }] }
      | .thrown e => { content := [{ type := "text", text := "Error: " ++ e }] }

/-! ### initContext and startServer -/

/-- The authentication mode a built Session Context ended up with. -/
inductive AuthMode where
  | serviceJwt
  | oauthSavedToken
  | oauthNewToken
deriving Repr, DecidableEq

/-- The Session Context as far as its construction logic is concerned: which
auth path built it, plus the optional destination folder id. -/
structure SessionContext where
  auth : AuthMode
  folderId : Option String
deriving Repr, DecidableEq

/-- The environment and collaborator replies `initContext` depends on. -/
structure InitEnv where
  /-- Variable `process.env.CREDENTIALS_CONFIG`; `none` models an unset variable and the
  guard `if (CREDENTIALS_CONFIG)` tests truthiness. -/
  credentialsConfig : Option String
  /-- base64-decoding the blob plus `JSON.parse` succeed. -/
  serviceKeyParses : Bool
  /-- Whether `authClient.authorize()` succeeds. -/
  serviceAuthorizes : Bool
  /-- Result of `fs.existsSync("credentials.json")`. -/
  credentialsFileExists : Bool
  /-- reading and `JSON.parse`-ing credentials.json succeeds. -/
  credentialsParse : Bool
  /-- Whether `credentials.installed || credentials.web` is present. -/
  hasClientConfig : Bool
  /-- Result of `fs.existsSync("token.json")`. -/
  tokenFileExists : Bool
  /-- reading and `JSON.parse`-ing token.json succeeds. -/
  tokenParses : Bool
  /-- the probe `drive.files.list({ pageSize: 1 })` succeeds. -/
  probeSucceeds : Bool
  /-- the interactive `getToken(code)` exchange succeeds. -/
  exchangeSucceeds : Bool
  /-- Value of `process.env.DRIVE_FOLDER_ID || ""`. -/
  driveFolderId : String
deriving Repr, DecidableEq

/-- Expression `folderId: DRIVE_FOLDER_ID || undefined` from the context assignments. -/
def contextFolder (env : InitEnv) : Option String :=
  if env.driveFolderId = "" then none else some env.driveFolderId

/-- How a run of `initContext` ends: a built context, or `process.exit(1)`. -/
inductive InitOutcome where
  | ok (ctx : SessionContext)
  | exit1
deriving Repr, DecidableEq

/-- An `initContext` run: its outcome and the console log prefixes it emits. -/
structure InitRun where
  outcome : InitOutcome
  log : List String
deriving Repr, DecidableEq

/-- The service-credential branch of `initContext` (README index.ts lines
169-192): `some ctx` when the blob parses and authorizes; otherwise `none`
together with the logged error, the inner catch never terminating the
process. -/
def serviceAttempt (env : InitEnv) : Option SessionContext × List String :=
  if jsTruthyStr env.credentialsConfig then
    if env.serviceKeyParses && env.serviceAuthorizes then
      (some { auth := .serviceJwt, folderId := contextFolder env }, [])
    else (none, ["Error with credentials from environment:"])
  else (none, [])

/-- The interactive token exchange of `initContext` (README index.ts lines
242-276): on success the token is stored and a context built; on failure the
thrown error propagates to the catch at line 277. -/
def exchangeAttempt (env : InitEnv) : Except String SessionContext × List String :=
  if env.exchangeSucceeds then
    (.ok { auth := .oauthNewToken, folderId := contextFolder env },
     ["Authorize this app by visiting this URL:", "Token stored to token.json"])
  else
    (.error "Authentication failed: OAuth process error",
     ["Authorize this app by visiting this URL:", "Error getting token:",
      "Error in OAuth flow:"])

/-- The OAuth branch of `initContext` (README index.ts lines 198-283).  A
missing credentials file throws "No valid authentication method available"; a
parse failure, missing client config or unreadable token file reaches the catch
at line 277; a failing probe of a saved token only logs and falls through to the
interactive exchange. -/
def oauthAttempt (env : InitEnv) : Except String SessionContext × List String :=
  if env.credentialsFileExists then
    let pre := ["Using OAuth credentials from file"]
    if !(env.credentialsParse && env.hasClientConfig) then
      (.error "Authentication failed: OAuth process error",
       pre ++ ["Error in OAuth flow:"])
    else if env.tokenFileExists then
      if !env.tokenParses then
        (.error "Authentication failed: OAuth process error",
         pre ++ ["Using saved token", "Error in OAuth flow:"])
      else if env.probeSucceeds then
        (.ok { auth := .oauthSavedToken, folderId := contextFolder env },
         pre ++ ["Using saved token",
           "OAuth authentication successful with saved token"])
      else
        let step := exchangeAttempt env
        (step.1, pre ++ ["Using saved token",
          "Saved token is invalid, generating new one:"] ++ step.2)
    else
      let step := exchangeAttempt env
      (step.1, pre ++ step.2)
  else (.error "No valid authentication method available", [])

/-- Embedding of `initContext`, src/README.md index.ts lines 167-290: the service path is
attempted first and returns immediately on success; any error reaching the outer
catch is logged and followed by `process.exit(1)`. -/
def initContext (env : InitEnv) : InitRun :=
  match serviceAttempt env with
  | (some ctx, slog) => { outcome := .ok ctx, log := slog }
  | (none, slog) =>
      match oauthAttempt env with
      | (.ok ctx, olog) => { outcome := .ok ctx, log := slog ++ olog }
      | (.error _e, olog) =>
          { outcome := .exit1,
            log := slog ++ olog ++ ["Failed to initialize context:"] }

/-- The condition under which the service-credential path builds a context, read
off the control flow of README index.ts lines 169-192. -/
def servicePathYields (env : InitEnv) : Bool :=
  jsTruthyStr env.credentialsConfig && env.serviceKeyParses && env.serviceAuthorizes

/-- The condition under which the OAuth path builds a context, read off the
control flow of README index.ts lines 198-283. -/
def oauthPathYields (env : InitEnv) : Bool :=
  env.credentialsFileExists && env.credentialsParse && env.hasClientConfig &&
    (if env.tokenFileExists then
      env.tokenParses && (env.probeSucceeds || env.exchangeSucceeds)
    else env.exchangeSucceeds)

/-- Number of assignments to the module-level `context` variable executed on a
run of `initContext`: the three assignment sites (README index.ts lines 183,
230 and 267) each immediately precede a `return`, so exactly one executes on a
successful run and none on a failing one. -/
def contextAssignments (env : InitEnv) : Nat :=
  if servicePathYields env then 1 else if oauthPathYields env then 1 else 0

/-- The two awaited steps of `startServer`. -/
inductive StartupEvent where
  | serverConnected
  | contextInitialized
deriving Repr, DecidableEq

/-- Trace of `startServer`, src/README.md index.ts lines 486-496: it awaits
`server.connect(transport)` first and only afterwards awaits `initContext()`. -/
def startServerTrace : List StartupEvent :=
  [.serverConnected, .contextInitialized]

/-! ## Theorems -/

/-- A linear scan with `List.find?` selects the head of the first suffix whose
head satisfies the predicate. -/
theorem find?_append_first {α : Type} (p : α → Bool) (pre : List α) (x : α)
    (post : List α) (hpre : ∀ y ∈ pre, p y = false) (hx : p x = true) :
    (pre ++ x :: post).find? p = some x := by
  induction pre with
  | nil => simp [List.find?, hx]
  | cons a l ih =>
      have ha : p a = false := hpre a (List.mem_cons_self a l)
      rw [List.cons_append, List.find?_cons, ha]
      exact ih (fun y hy => hpre y (List.mem_cons_of_mem a hy))

/-- C10: at the public interface the `range` argument of `sheetData` and
`updateCells` is discriminated by truthiness, so an empty-string range is
indistinguishable from an absent range, and in both cases the request sent to
the collaborator addresses the bare sheet name (the whole sheet). -/
theorem c10_empty_range_equals_absent_range :
    ∀ (spreadsheetId sheet : String) (data : List (List String)),
      sheetDataRequest spreadsheetId sheet (some "")
          = sheetDataRequest spreadsheetId sheet none
      ∧ (sheetDataRequest spreadsheetId sheet none).range = sheet
      ∧ updateCellsRequest spreadsheetId sheet (some "") data
          = updateCellsRequest spreadsheetId sheet none data
      ∧ (updateCellsRequest spreadsheetId sheet none data).range = sheet := by
  intro spreadsheetId sheet data
  refine ⟨?_, rfl, ?_, rfl⟩ <;> simp [sheetDataRequest, updateCellsRequest, jsTruthyStr]

/-- C7: `batchUpdate` does issue a single user-entered batch request with one
entry per element of `ranges`, but `Object.entries` over the array makes each
entry's range the element's index qualified by the sheet name (`"Sheet1!0"`,
`"Sheet1!1"`), not any range from the input, and each entry's `values` is a
single row rather than a grid — evaluated here at a concrete input. -/
theorem c7_batch_entries_address_indices :
    batchUpdateBody "Sheet1" [["x", "y"], ["z"]]
      = { valueInputOption := "USER_ENTERED",
          data := [{ range := "Sheet1!0", values := ["x", "y"] },
                   { range := "Sheet1!1", values := ["z"] }] } := by
  decide

/-- C4: the `updateCells`, `batchUpdate`, `addRows`, `addColumns` and
`copySheet` tool callbacks do not await the operation they start, so the
response envelope never wraps the operation's result: `addRows`/`addColumns`
answer a fixed success text even when the operation resolves to its not-found
sentinel, and the other three interpolate a pending Promise. -/
theorem c4_tool_envelopes_ignore_operation_results :
    addRows ⟨some [⟨some ⟨some "Sheet1", some 0⟩⟩]⟩ "Missing" 3 0
        = .notFound "Sheet Not found"
    ∧ addRowsTool ⟨some [⟨some ⟨some "Sheet1", some 0⟩⟩]⟩ "Missing" 3 0
        = { content := [{ type := "text", text := "The rows were added successfully!" }] }
    ∧ addColumns ⟨some [⟨some ⟨some "Sheet1", some 0⟩⟩]⟩ "Missing" 2 1
        = .notFound "Sheet not found"
    ∧ addColumnsTool ⟨some [⟨some ⟨some "Sheet1", some 0⟩⟩]⟩ "Missing" 2 1
        = { content := [{ type := "text", text := "The columns were added successfully!" }] }
    ∧ updateCellsTool "sid" "Sheet1" "A1:B2" [["v"]]
        = { content := [{ type := "text", text := "Data was updated successfully.[object Promise]" }] }
    ∧ batchUpdateTool "Sheet1" [["v"]]
        = { content := [{ type := "text", text := "The values were updated: [object Promise]" }] }
    ∧ copySheetTool ⟨some []⟩ "Src" "Dst" ⟨none, none⟩
        = { content := [{ type := "text", text := "Sheet was successfully copied to destination sheet. [object Promise]" }] } := by
  refine ⟨by decide, rfl, by decide, rfl, rfl, rfl, rfl⟩

/-- C8: `createSpreadSheet` returns the new spreadsheet's id and link even when
both the permission grant and the folder move throw (they are only logged), but
the grant it attempts names the string literal `"process.env.EMAIL_ID"` as the
recipient — the configured address (here `user@example.com`) is never used. -/
theorem c8_create_side_effects_and_literal_email :
    (createSpreadSheet ⟨some "folder9"⟩
        ⟨some "sid1", some "https://sheets/sid1", true, some ["p0"], true⟩).result
      = .ok ("sid1", some "https://sheets/sid1")
    ∧ (createSpreadSheet ⟨some "folder9"⟩
        ⟨some "sid1", some "https://sheets/sid1", true, some ["p0"], true⟩).log
      = ["Error granting permissions:", "Error moving to folder:"]
    ∧ (createSpreadSheet ⟨some "folder9"⟩
        ⟨some "sid1", some "https://sheets/sid1", true, some ["p0"], true⟩).permissionRequest
      = some ⟨"sid1", "user", "writer", "process.env.EMAIL_ID", true⟩
    ∧ "process.env.EMAIL_ID" ≠ "user@example.com" := by
  refine ⟨rfl, rfl, rfl, by decide⟩

/-- C1: the resolve-sheet-by-title scan selects the first descriptor whose title
is exactly the requested title; any selected descriptor's title equals the
request exactly (so matching is case-sensitive: a sheet titled "Sheet1" is not
found by "sheet1"); and when no descriptor matches, `renameSheet`, `addRows`,
`addColumns` and `copySheet` each return their not-found sentinel, which is a
different constructor from every successful result. -/
theorem c1_resolve_by_title_first_match_and_not_found :
    (∀ (meta : SpreadsheetMeta) (t : String) (pre post : List Sheet) (s : Sheet),
      meta.sheets = some (pre ++ s :: post) →
      (∀ x ∈ pre, ¬ x.titleOf = some t) →
      s.titleOf = some t →
      findSheetByTitle meta t = some s)
    ∧ (∀ (meta : SpreadsheetMeta) (t : String) (s : Sheet),
        findSheetByTitle meta t = some s → s.titleOf = some t)
    ∧ findSheetByTitle ⟨some [⟨some ⟨some "Sheet1", some 7⟩⟩]⟩ "sheet1" = none
    ∧ (∀ (meta : SpreadsheetMeta) (t newName dst : String) (count start : Int)
        (copyReply : CopyReplyData),
      findSheetByTitle meta t = none →
      renameSheet meta t newName
          = .notFound "Cannot find the sheet with the specified name"
      ∧ addRows meta t count start = .notFound "Sheet Not found"
      ∧ addColumns meta t count start = .notFound "Sheet not found"
      ∧ copySheet meta t dst copyReply = .notFound "Source sheet not found")
    ∧ (∀ (m : String) (b : BatchUpdateBody), RenameResult.notFound m ≠ .success b)
    ∧ (∀ (m : String) (b : BatchUpdateBody), InsertResult.notFound m ≠ .success b)
    ∧ (∀ (m : String) (c : CopyReplyData), CopySheetResult.notFound m ≠ .copied c)
    ∧ (∀ (m : String) (c : CopyReplyData) (b : BatchUpdateBody),
        CopySheetResult.notFound m ≠ .copiedAndRenamed c b) := by
  refine ⟨?_, ?_, by decide, ?_, ?_, ?_, ?_, ?_⟩
  · intro meta t pre post s hmeta hpre hs
    unfold findSheetByTitle
    rw [hmeta]
    exact find?_append_first _ pre s post
      (fun y hy => by simpa using hpre y hy) (by simpa using hs)
  · intro meta t s h
    have := List.find?_some h
    simpa using this
  · intro meta t newName dst count start copyReply h
    refine ⟨?_, ?_, ?_, ?_⟩ <;> simp [renameSheet, addRows, addColumns, copySheet, h]
  · intro m b h; cases h
  · intro m b h; cases h
  · intro m c h; cases h
  · intro m c b h; cases h

/-- Witness for C1: on a spreadsheet with two sheets titled "B", the scan
returns the earlier one, and on a spreadsheet without the requested title,
`renameSheet` answers its not-found sentinel. -/
theorem c1_resolve_by_title_first_match_and_not_found_witness :
    findSheetByTitle
        ⟨some [⟨some ⟨some "A", some 1⟩⟩, ⟨some ⟨some "B", some 2⟩⟩,
          ⟨some ⟨some "B", some 3⟩⟩]⟩ "B"
      = some ⟨some ⟨some "B", some 2⟩⟩
    ∧ renameSheet ⟨some [⟨some ⟨some "A", some 1⟩⟩]⟩ "Z" "Y"
      = .notFound "Cannot find the sheet with the specified name" := by
  constructor
  · exact c1_resolve_by_title_first_match_and_not_found.1
      ⟨some [⟨some ⟨some "A", some 1⟩⟩, ⟨some ⟨some "B", some 2⟩⟩,
        ⟨some ⟨some "B", some 3⟩⟩]⟩ "B"
      [⟨some ⟨some "A", some 1⟩⟩] [⟨some ⟨some "B", some 3⟩⟩]
      ⟨some ⟨some "B", some 2⟩⟩ rfl (by decide) (by decide)
  · exact (c1_resolve_by_title_first_match_and_not_found.2.2.2.1
      ⟨some [⟨some ⟨some "A", some 1⟩⟩]⟩ "Z" "Y" "" 0 0 ⟨none, none⟩ (by decide)).1

/-- Lengths of the two outcome lists of `shareSpreadsheet` always sum to the
number of recipients, for every grant oracle. -/
theorem shareSpreadsheet_length (grant : Recipient → GrantOutcome) :
    ∀ recipients : List Recipient,
      (shareSpreadsheet grant recipients).successes.length
        + (shareSpreadsheet grant recipients).failures.length
        = recipients.length := by
  intro recipients
  induction recipients with
  | nil => rfl
  | cons r rest ih =>
      unfold shareSpreadsheet
      rcases hv : validShareEntry r with _ | _
      · simpa using by omega
      · rcases hg : grant r with pid | m <;> simp <;> omega

/-- Every invalid recipient contributes an "Invalid Entry" failure. -/
theorem shareSpreadsheet_invalid_mem (grant : Recipient → GrantOutcome) :
    ∀ (recipients : List Recipient) (r : Recipient), r ∈ recipients →
      validShareEntry r = false →
      (⟨r.email_address, "Invalid Entry"⟩ : ShareFailure)
        ∈ (shareSpreadsheet grant recipients).failures := by
  intro recipients
  induction recipients with
  | nil => intro r h; cases h
  | cons a rest ih =>
      intro r hmem hinv
      rcases List.mem_cons.mp hmem with heq | htail
      · subst heq
        unfold shareSpreadsheet
        rw [hinv]
        simp
      · unfold shareSpreadsheet
        rcases hv : validShareEntry a with _ | _
        · simpa using Or.inr (ih r htail hinv)
        · rcases hg : grant a with pid | m
          · simpa using ih r htail hinv
          · simpa using Or.inr (ih r htail hinv)

/-- Invalid recipients never cause a grant attempt: the result only depends on
the oracle's replies for valid recipients. -/
theorem shareSpreadsheet_oracle_congr (g g2 : Recipient → GrantOutcome)
    (hagree : ∀ r, validShareEntry r = true → g r = g2 r) :
    ∀ recipients : List Recipient,
      shareSpreadsheet g recipients = shareSpreadsheet g2 recipients := by
  intro recipients
  induction recipients with
  | nil => rfl
  | cons a rest ih =>
      unfold shareSpreadsheet
      rcases hv : validShareEntry a with _ | _
      · simp [ih]
      · rw [hagree a hv, ih]

/-- C5: for every grant oracle and recipient list, `shareSpreadsheet` produces
exactly one outcome per recipient (the two lists' lengths sum to the number of
recipients, so no failure aborts later entries); each recipient with an empty
address or a role outside reader/commenter/writer is recorded as an
"Invalid Entry" failure; and the result is unchanged under any change of the
oracle's replies on invalid recipients, i.e. no grant is attempted for them. -/
theorem c5_share_one_outcome_per_recipient :
    ∀ (grant : Recipient → GrantOutcome) (recipients : List Recipient),
      ((shareSpreadsheet grant recipients).successes.length
        + (shareSpreadsheet grant recipients).failures.length = recipients.length)
      ∧ (∀ r ∈ recipients, validShareEntry r = false →
          (⟨r.email_address, "Invalid Entry"⟩ : ShareFailure)
            ∈ (shareSpreadsheet grant recipients).failures)
      ∧ (∀ grant2 : Recipient → GrantOutcome,
          (∀ r, validShareEntry r = true → grant r = grant2 r) →
          shareSpreadsheet grant recipients = shareSpreadsheet grant2 recipients) := by
  intro grant recipients
  exact ⟨shareSpreadsheet_length grant recipients,
    fun r hm hv => shareSpreadsheet_invalid_mem grant recipients r hm hv,
    fun g2 hag => shareSpreadsheet_oracle_congr grant g2 hag recipients⟩

/-- Witness for C5, on the spec's own example: one valid writer, one empty
address, one bogus role — one success and two failures, three outcomes. -/
theorem c5_share_one_outcome_per_recipient_witness :
    ((shareSpreadsheet (fun _ => .ok "perm1")
        [⟨"a@x.com", "writer"⟩, ⟨"", "reader"⟩, ⟨"b@x.com", "bogusrole"⟩]).successes.length
      + (shareSpreadsheet (fun _ => .ok "perm1")
        [⟨"a@x.com", "writer"⟩, ⟨"", "reader"⟩, ⟨"b@x.com", "bogusrole"⟩]).failures.length
      = 3)
    ∧ (⟨"", "Invalid Entry"⟩ : ShareFailure)
        ∈ (shareSpreadsheet (fun _ => .ok "perm1")
          [⟨"a@x.com", "writer"⟩, ⟨"", "reader"⟩, ⟨"b@x.com", "bogusrole"⟩]).failures
    ∧ shareSpreadsheet (fun _ => .ok "perm1")
        [⟨"a@x.com", "writer"⟩, ⟨"", "reader"⟩, ⟨"b@x.com", "bogusrole"⟩]
      = ⟨[⟨"a@x.com", "writer", "perm1"⟩],
         [⟨"", "Invalid Entry"⟩, ⟨"b@x.com", "Invalid Entry"⟩]⟩ := by
  refine ⟨?_, ?_, by decide⟩
  · exact (c5_share_one_outcome_per_recipient (fun _ => .ok "perm1")
      [⟨"a@x.com", "writer"⟩, ⟨"", "reader"⟩, ⟨"b@x.com", "bogusrole"⟩]).1
  · exact (c5_share_one_outcome_per_recipient (fun _ => .ok "perm1")
      [⟨"a@x.com", "writer"⟩, ⟨"", "reader"⟩, ⟨"b@x.com", "bogusrole"⟩]).2.1
      ⟨"", "reader"⟩ (by decide) (by decide)

/-- JavaScript `x || 0` is the identity on integers. -/
theorem jsOrZero_eq (x : Int) : jsOrZero x = x := by
  unfold jsOrZero
  split <;> simp_all

/-- C6: when the sheet title resolves, `addRows` and `addColumns` each issue
exactly one insert-dimension request covering the half-open index interval from
the start index to start index plus count, and formatting inheritance from the
preceding row/column is requested precisely when the start index is nonzero. -/
theorem c6_insert_dimension_interval_and_inheritance :
    ∀ (meta : SpreadsheetMeta) (sheet : String) (count startIdx : Int) (s : Sheet),
      findSheetByTitle meta sheet = some s →
      addRows meta sheet count startIdx = .success { requests := [.insertDimension
          ⟨s.sheetIdOf, "ROWS", startIdx, startIdx + count⟩ (jsTruthyInt startIdx)] }
      ∧ addColumns meta sheet count startIdx = .success { requests := [.insertDimension
          ⟨s.sheetIdOf, "COLUMNS", startIdx, startIdx + count⟩ (jsTruthyInt startIdx)] }
      ∧ (jsTruthyInt startIdx = true ↔ startIdx ≠ 0) := by
  intro meta sheet count startIdx s h
  refine ⟨?_, ?_, ?_⟩
  · simp [addRows, h, jsOrZero_eq]
  · simp [addColumns, h, jsOrZero_eq]
  · simp [jsTruthyInt]

/-- Witness for C6: inserting 3 rows at start 5 covers indices 5 to 8 with
inheritance; inserting 3 rows at start 0 covers 0 to 3 without inheritance. -/
theorem c6_insert_dimension_interval_and_inheritance_witness :
    addRows ⟨some [⟨some ⟨some "Sheet1", some 7⟩⟩]⟩ "Sheet1" 3 5
      = .success { requests := [.insertDimension ⟨some 7, "ROWS", 5, 8⟩ true] }
    ∧ addRows ⟨some [⟨some ⟨some "Sheet1", some 7⟩⟩]⟩ "Sheet1" 3 0
      = .success { requests := [.insertDimension ⟨some 7, "ROWS", 0, 3⟩ false] } := by
  constructor
  · rw [(c6_insert_dimension_interval_and_inheritance
      ⟨some [⟨some ⟨some "Sheet1", some 7⟩⟩]⟩ "Sheet1" 3 5
      ⟨some ⟨some "Sheet1", some 7⟩⟩ (by decide)).1]
    decide
  · rw [(c6_insert_dimension_interval_and_inheritance
      ⟨some [⟨some ⟨some "Sheet1", some 7⟩⟩]⟩ "Sheet1" 3 0
      ⟨some ⟨some "Sheet1", some 7⟩⟩ (by decide)).1]
    decide

/-- C2: for every registered tool and argument record, `dispatch` yields exactly
one envelope holding exactly one text content item (never empty), and a
handler's thrown error is caught and converted into a text content item, so no
tool invocation raises past the dispatch boundary. -/
theorem c2_dispatch_single_text_envelope :
    ∀ (registry : List ToolDescriptor) (name : String)
      (args : List (String × String)) (d : ToolDescriptor),
      lookupTool registry name = some d →
      (∃ s : String, dispatch registry name args
          = { content := [{ type := "text", text := s }] })
      ∧ (dispatch registry name args).content ≠ []
      ∧ (∀ e, d.handler args = .thrown e →
          dispatch registry name args
            = { content := [{ type := "text", text := "Error: " ++ e }] }) := by
  intro registry name args d h
  refine ⟨?_, ?_, ?_⟩
  · rcases hh : d.handler args with v | e
    · exact ⟨v, by simp [dispatch, h, hh]⟩
    · exact ⟨"Error: " ++ e, by simp [dispatch, h, hh]⟩
  · rcases hh : d.handler args with v | e <;> simp [dispatch, h, hh]
  · intro e he
    simp [dispatch, h, he]

/-- Witness for C2: a registry with one tool whose handler throws; dispatching
it yields the single error-text envelope. -/
theorem c2_dispatch_single_text_envelope_witness :
    dispatch [⟨"boom", fun _ => .thrown "quota exceeded"⟩] "boom" []
      = { content := [{ type := "text", text := "Error: quota exceeded" }] } := by
  exact (c2_dispatch_single_text_envelope
    [⟨"boom", fun _ => .thrown "quota exceeded"⟩] "boom" []
    ⟨"boom", fun _ => .thrown "quota exceeded"⟩ rfl).2.2 "quota exceeded" rfl

/-- The service-credential branch yields no context exactly when
`servicePathYields` is false. -/
theorem serviceAttempt_none_iff (env : InitEnv) :
    (serviceAttempt env).1 = none ↔ servicePathYields env = false := by
  unfold serviceAttempt servicePathYields
  cases hb : jsTruthyStr env.credentialsConfig <;>
    cases h1 : env.serviceKeyParses <;>
    cases h2 : env.serviceAuthorizes <;> simp

/-- The OAuth branch yields a context exactly when `oauthPathYields` is true. -/
theorem oauthAttempt_ok_iff (env : InitEnv) :
    (∃ ctx, (oauthAttempt env).1 = .ok ctx) ↔ oauthPathYields env = true := by
  unfold oauthAttempt oauthPathYields exchangeAttempt
  cases h3 : env.credentialsFileExists <;>
    cases h4 : env.credentialsParse <;>
    cases h5 : env.hasClientConfig <;>
    cases h6 : env.tokenFileExists <;>
    cases h7 : env.tokenParses <;>
    cases h8 : env.probeSucceeds <;>
    cases h9 : env.exchangeSucceeds <;> simp

/-- The OAuth branch never reads the service blob. -/
theorem oauthAttempt_ignores_blob (env : InitEnv) :
    oauthAttempt { env with credentialsConfig := none } = oauthAttempt env := by
  obtain ⟨cc, f1, f2, f3, f4, f5, f6, f7, f8, f9, f10⟩ := env
  rfl

/-- A run of `initContext` exits fatally exactly when neither credential path
yields a Session Context. -/
theorem initContext_exit1_iff (env : InitEnv) :
    (initContext env).outcome = .exit1 ↔
      servicePathYields env = false ∧ oauthPathYields env = false := by
  have hsvc := serviceAttempt_none_iff env
  have hoa := oauthAttempt_ok_iff env
  unfold initContext
  rcases hs : serviceAttempt env with ⟨s, slog⟩
  rw [hs] at hsvc
  cases s with
  | some ctx =>
      simp only [Option.some_ne_none, false_iff] at hsvc
      simp [Bool.not_eq_false] at hsvc
      simp [hsvc]
  | none =>
      simp only [true_iff] at hsvc
      rcases ho : oauthAttempt env with ⟨o, olog⟩
      rw [ho] at hoa
      cases o with
      | error e =>
          simp [hsvc]
          cases hy : oauthPathYields env
          · rfl
          · obtain ⟨ctx, hctx⟩ := hoa.mpr hy
            cases hctx
      | ok ctx =>
          have : oauthPathYields env = true := hoa.mp ⟨ctx, rfl⟩
          simp [this]

/-- A run of `initContext` builds a context exactly when one of the two paths
yields one. -/
theorem initContext_ok_iff (env : InitEnv) :
    (∃ ctx, (initContext env).outcome = .ok ctx) ↔
      (servicePathYields env = true ∨ oauthPathYields env = true) := by
  have h := initContext_exit1_iff env
  cases ho : (initContext env).outcome with
  | ok ctx =>
      rw [ho] at h
      simp only [reduceCtorEq, false_iff, not_and] at h
      constructor
      · intro _
        by_cases hs : servicePathYields env = true
        · exact Or.inl hs
        · exact Or.inr (by
            have := h (by simpa using hs)
            simpa using this)
      · intro _
        exact ⟨ctx, rfl⟩
  | exit1 =>
      rw [ho] at h
      simp only [true_iff] at h
      constructor
      · intro ⟨ctx, hctx⟩
        cases hctx
      · intro hor
        rcases hor with hs | hoy
        · rw [h.1] at hs
          cases hs
        · rw [h.2] at hoy
          cases hoy

/-- C3: when the service credential blob is truthy it is attempted first and on
success determines the Session Context; when it fails, the failure is logged
and the run continues exactly as if no blob were present (the process does not
terminate on this path alone); and the run exits fatally precisely when neither
the service path nor the OAuth path yields a Session Context. -/
theorem c3_credential_priority_and_fatal_exit :
    ∀ env : InitEnv,
      (jsTruthyStr env.credentialsConfig = true →
        env.serviceKeyParses = true → env.serviceAuthorizes = true →
        initContext env = { outcome := .ok ⟨.serviceJwt, contextFolder env⟩, log := [] })
      ∧ (jsTruthyStr env.credentialsConfig = true →
        (env.serviceKeyParses && env.serviceAuthorizes) = false →
        (initContext env).outcome
            = (initContext { env with credentialsConfig := none }).outcome
        ∧ "Error with credentials from environment:" ∈ (initContext env).log)
      ∧ ((initContext env).outcome = .exit1 ↔
          servicePathYields env = false ∧ oauthPathYields env = false) := by
  intro env
  refine ⟨?_, ?_, initContext_exit1_iff env⟩
  · intro h1 h2 h3
    unfold initContext serviceAttempt
    simp [h1, h2, h3]
  · intro h1 h2
    have hblob := oauthAttempt_ignores_blob env
    have hnone : serviceAttempt { env with credentialsConfig := none }
        = (none, []) := by
      unfold serviceAttempt
      simp [jsTruthyStr]
    constructor
    · unfold initContext
      rw [hblob, hnone]
      unfold serviceAttempt
      simp only [h1, if_true, h2, if_false]
      rcases ho : oauthAttempt env with ⟨o, olog⟩
      cases o <;> rfl
    · unfold initContext serviceAttempt
      simp only [h1, if_true, h2, if_false]
      rcases ho : oauthAttempt env with ⟨o, olog⟩
      cases o <;> simp

/-- Witness for C3: with a blob that fails authorization and a working
credentials-file path, the run falls through to OAuth, logs the service error,
and does not exit. -/
theorem c3_credential_priority_and_fatal_exit_witness :
    ((initContext ⟨some "blob", true, false, true, true, true, false, true, true, true, ""⟩).outcome
      = (initContext { (⟨some "blob", true, false, true, true, true, false, true, true, true, ""⟩ : InitEnv)
          with credentialsConfig := none }).outcome)
    ∧ "Error with credentials from environment:"
        ∈ (initContext ⟨some "blob", true, false, true, true, true, false, true, true, true, ""⟩).log
    ∧ ¬ ((initContext ⟨some "blob", true, false, true, true, true, false, true, true, true, ""⟩).outcome
        = .exit1) := by
  have h := c3_credential_priority_and_fatal_exit
    ⟨some "blob", true, false, true, true, true, false, true, true, true, ""⟩
  refine ⟨(h.2.1 (by decide) (by decide)).1, (h.2.1 (by decide) (by decide)).2, ?_⟩
  rw [h.2.2]
  decide

/-- C9 counterexample: the claim requires the Session Context to exist before
any tool request can be served, but `startServer` awaits the transport
connection before `initContext`, so context initialization does not precede the
point where serving becomes possible. -/
theorem c9_startup_order_counterexample :
    ¬ (startServerTrace.indexOf StartupEvent.contextInitialized
        < startServerTrace.indexOf StartupEvent.serverConnected) := by
  decide

/-- C9 (amended): the `context` variable is assigned at most once per process
(exactly once when initialization succeeds, never on a failed run, and handlers
only read it), but the transport is connected before `initContext` runs, so the
startup trace places the connection first. -/
theorem c9_context_assigned_once_but_connect_first :
    startServerTrace = [StartupEvent.serverConnected, StartupEvent.contextInitialized]
    ∧ (∀ env : InitEnv, contextAssignments env ≤ 1)
    ∧ (∀ env : InitEnv,
        ((∃ ctx, (initContext env).outcome = .ok ctx) ↔ contextAssignments env = 1)) := by
  refine ⟨rfl, ?_, ?_⟩
  · intro env
    unfold contextAssignments
    split
    · exact le_refl 1
    · split
      · exact le_refl 1
      · exact Nat.zero_le 1
  · intro env
    rw [initContext_ok_iff env]
    unfold contextAssignments
    cases hs : servicePathYields env <;> cases hoy : oauthPathYields env <;> simp

end McpGoogleSheets
